import Mathlib

/-!
Verification of the transport-logistics backend (main.py, schemas.py).

The embedding models:
* documents of the document store as association lists from field names
  (strings) to values (`Doc`), with Python `dict` get/set semantics;
* the shipment-document normalization inlined in `track_shipment`
  (main.py lines 88-99);
* the pydantic validation of `QuoteRequest` (schemas.py) and `NewShipment`
  (main.py lines 107-112);
* the three handlers `create_quote`, `track_shipment`, `create_shipment`
  with their try/except structure.

The persistence collaborator (`database.py`: `create_document`,
`get_documents`) is not part of the sources; where a claim needs it, it is
modelled from the spec's collaborator contract and marked as such.
-/

namespace Backend

/-- Abstract timestamp standing for a Python `datetime` value. -/
structure DTime where
  n : Nat
deriving DecidableEq

/-- Abstracts `datetime.isoformat()`: the ISO-8601 string rendering of a
timestamp.  The exact text is abstracted; what matters is that it is a
string determined by the timestamp. -/
def isoformat (t : DTime) : String := "iso-" ++ toString t.n

/-- Primitive document values: strings, datetimes, object identifiers
(carrying their hex rendering), null, integers, booleans. -/
inductive Prim where
  | pStr : String → Prim
  | pDt : DTime → Prim
  | pOid : String → Prim
  | pNull : Prim
  | pInt : Int → Prim
  | pNum : Rat → Prim
  | pBool : Bool → Prim
deriving DecidableEq

/-- Association list with string keys: the embedding of a Python dict. -/
def AList (α : Type) : Type := List (String × α)

instance (α : Type) [DecidableEq α] : DecidableEq (AList α) :=
  inferInstanceAs (DecidableEq (List (String × α)))

/-- An entry of a shipment's `events` list: a document of primitive values. -/
def EventDoc : Type := AList Prim

instance : DecidableEq EventDoc := inferInstanceAs (DecidableEq (AList Prim))

/-- A top-level document value: a primitive, or a list of event documents
(the shape the `events` field holds). -/
inductive Value where
  | prim : Prim → Value
  | vList : List EventDoc → Value
deriving DecidableEq

/-- A stored document: a mapping from field names to values. -/
def Doc : Type := AList Value

instance : DecidableEq Doc := inferInstanceAs (DecidableEq (AList Value))

/-- First-match lookup: `d[k]` when present, `none` when absent. -/
def alookup {α : Type} : AList α → String → Option α
  | [], _ => none
  | (k', v) :: rest, k => if k' = k then some v else alookup rest k

/-- Python dict assignment `d[k] = v`: replaces the value in place when the
key is present (keeping its position), appends otherwise. -/
def aset {α : Type} : AList α → String → α → AList α
  | [], k, v => [(k, v)]
  | (k', v') :: rest, k, v =>
      if k' = k then (k, v) :: rest else (k', v') :: aset rest k v

/-- Python `d.get(k)`: the value when present, `None` when absent. -/
def pyGet (d : Doc) (k : String) : Value :=
  (alookup d k).getD (.prim .pNull)

/-- Python `str(v)` on the document values the code can pass to `str`.
`str(None) = "None"`; a string maps to itself; an ObjectId to its hex
rendering; the remaining renderings are abstracted. -/
def pyStr : Value → String
  | .prim (.pStr s) => s
  | .prim (.pDt t) => "datetime-" ++ toString t.n
  | .prim (.pOid h) => h
  | .prim .pNull => "None"
  | .prim (.pInt n) => toString n
  | .prim (.pNum q) => toString q
  | .prim (.pBool b) => if b then "True" else "False"
  | .vList es => "list-of-" ++ toString es.length

/-- Python truthiness of a document value (`None`, `0`, `""`, `False` and
empty lists are falsy). -/
def pyTruthy : Value → Bool
  | .prim .pNull => false
  | .prim (.pStr s) => s ≠ ""
  | .prim (.pDt _) => true
  | .prim (.pOid _) => true
  | .prim (.pInt n) => n ≠ 0
  | .prim (.pNum q) => q ≠ 0
  | .prim (.pBool b) => b
  | .vList es => !es.isEmpty

/-- One iteration of the loop in main.py lines 91-93:
`if isinstance(doc.get(key), datetime): doc[key] = doc[key].isoformat()`. -/
def normTsField (d : Doc) (k : String) : Doc :=
  match alookup d k with
  | some (.prim (.pDt t)) => aset d k (.prim (.pStr (isoformat t)))
  | _ => d

/-- One iteration of the loop in main.py lines 96-99: if the event's
`timestamp` is a datetime, replace it with its ISO string. -/
def normEvent (e : EventDoc) : EventDoc :=
  match alookup e "timestamp" with
  | some (.pDt t) => aset e "timestamp" (.pStr (isoformat t))
  | _ => e

/-- Main.py lines 90-93: set `_id` to `str(doc.get("_id"))`, then convert
`eta` and `last_update` to ISO strings when they are datetimes. -/
def normTop (d : Doc) : Doc :=
  normTsField
    (normTsField (aset d "_id" (.prim (.pStr (pyStr (pyGet d "_id"))))) "eta")
    "last_update"

/-- The normalization inlined in `track_shipment` (main.py lines 88-99).
`none` models the Python exception raised when `doc.get("events")` is a
truthy value that cannot be iterated as event documents (`for e in events`
then `e.get(...)`); that exception is caught by the handler and turned into
a 500.  Otherwise the loop body runs when `doc.get("events") or []` is the
nonempty events list, and runs zero times when the field is absent or
falsy. -/
def normalize (d : Doc) : Option Doc :=
  let d3 := normTop d
  let ev := pyGet d3 "events"
  if pyTruthy ev then
    match ev with
    | .vList es => some (aset d3 "events" (.vList (es.map normEvent)))
    | .prim _ => none
  else
    some d3

/-! ## Request bodies and pydantic validation -/

/-- A JSON value of an incoming request body (the shapes the schemas use). -/
inductive JVal where
  | jStr : String → JVal
  | jNum : Rat → JVal
  | jBool : Bool → JVal
  | jNull : JVal
deriving DecidableEq

/-- An incoming JSON request body: a mapping from field names to values. -/
def JsonObj : Type := AList JVal

instance : DecidableEq JsonObj := inferInstanceAs (DecidableEq (AList JVal))

/-- Split a character list on a separator character (the list-level analogue
of splitting a string on a single-character separator). -/
def splitOnChar : List Char → Char → List (List Char)
  | [], _ => [[]]
  | c :: cs, sep =>
    match splitOnChar cs sep, decide (c = sep) with
    | rest, true => [] :: rest
    | [], false => [[c]]
    | r :: rs, false => (c :: r) :: rs

/-- Abstracts pydantic's `EmailStr` check ("standard email syntax", backed by
the external email-validator package): one `@` separating a nonempty local
part from a nonempty domain that contains a dot. -/
def isValidEmail (s : String) : Bool :=
  match splitOnChar s.data '@' with
  | [l, d] => !l.isEmpty && !d.isEmpty && d.contains '.'
  | _ => false

/-- A required `str` field: present and a string, else a validation error. -/
def reqStr (m : JsonObj) (k : String) : Option String :=
  match alookup m k with
  | some (.jStr s) => some s
  | _ => none

/-- An `Optional[str]` field: absent or null yields `none`; a string is
accepted; any other value is a validation error. -/
def optStr (m : JsonObj) (k : String) : Option (Option String) :=
  match alookup m k with
  | none => some none
  | some .jNull => some none
  | some (.jStr s) => some (some s)
  | some _ => none

/-- An `Optional[float]` field with `ge=0` (schemas.py line 45): absent or
null yields `none`; a number is accepted iff it is nonnegative. -/
def optNonnegNum (m : JsonObj) (k : String) : Option (Option Rat) :=
  match alookup m k with
  | none => some none
  | some .jNull => some none
  | some (.jNum q) => if 0 ≤ q then some (some q) else none
  | some _ => none

/-- The validated `QuoteRequest` model (schemas.py lines 34-53). -/
structure QuoteRequest where
  name : String
  email : String
  phone : Option String
  company : Option String
  cargo_type : String
  weight_kg : Option Rat
  dimensions_cm : Option String
  pickup_location : String
  delivery_location : String
  preferred_pickup_date : Option String
  preferred_delivery_date : Option String
  notes : Option String
deriving DecidableEq

/-- Pydantic validation of a request body against `QuoteRequest`
(schemas.py lines 34-53): every field constraint must hold, including the
`EmailStr` syntax check and `weight_kg >= 0`; `some` is the validated model,
`none` the 422 validation error. -/
def validateQuoteRequest (m : JsonObj) : Option QuoteRequest :=
  (reqStr m "name").bind fun name =>
  (reqStr m "email").bind fun email =>
  (if isValidEmail email then some () else none).bind fun _ =>
  (optStr m "phone").bind fun phone =>
  (optStr m "company").bind fun company =>
  (reqStr m "cargo_type").bind fun cargo =>
  (optNonnegNum m "weight_kg").bind fun weight =>
  (optStr m "dimensions_cm").bind fun dims =>
  (reqStr m "pickup_location").bind fun pickup =>
  (reqStr m "delivery_location").bind fun delivery =>
  (optStr m "preferred_pickup_date").bind fun ppd =>
  (optStr m "preferred_delivery_date").bind fun pdd =>
  (optStr m "notes").bind fun notes =>
  some ⟨name, email, phone, company, cargo, weight, dims, pickup, delivery,
        ppd, pdd, notes⟩

/-- The document persisted for a validated quote request: all model fields,
optional ones stored as null when absent. -/
def quoteToDoc (q : QuoteRequest) : Doc :=
  [("name", .prim (.pStr q.name)),
   ("email", .prim (.pStr q.email)),
   ("phone", .prim ((q.phone.map Prim.pStr).getD .pNull)),
   ("company", .prim ((q.company.map Prim.pStr).getD .pNull)),
   ("cargo_type", .prim (.pStr q.cargo_type)),
   ("weight_kg", .prim ((q.weight_kg.map Prim.pNum).getD .pNull)),
   ("dimensions_cm", .prim ((q.dimensions_cm.map Prim.pStr).getD .pNull)),
   ("pickup_location", .prim (.pStr q.pickup_location)),
   ("delivery_location", .prim (.pStr q.delivery_location)),
   ("preferred_pickup_date", .prim ((q.preferred_pickup_date.map Prim.pStr).getD .pNull)),
   ("preferred_delivery_date", .prim ((q.preferred_delivery_date.map Prim.pStr).getD .pNull)),
   ("notes", .prim ((q.notes.map Prim.pStr).getD .pNull))]

/-- The validated `NewShipment` model (main.py lines 107-112). -/
structure NewShipment where
  tracking_number : String
  origin : String
  destination : String
  status : String
  eta : Option DTime
deriving DecidableEq

/-- Abstracts pydantic's ISO-8601 datetime parsing for the `eta` field:
accepts the rendering produced by `isoformat`. -/
def parseDt (s : String) : Option DTime :=
  if s.take 4 = "iso-" then ((s.drop 4).toNat?).map DTime.mk else none

/-- The `status` field of `NewShipment`: a `str` defaulting to the literal
`"In Transit"` when absent (main.py line 111). -/
def parseStatus (m : JsonObj) : Option String :=
  match alookup m "status" with
  | none => some "In Transit"
  | some (.jStr s) => some s
  | some _ => none

/-- The `eta` field of `NewShipment`: `Optional[datetime]` defaulting to
`None` when absent (main.py line 112); an explicit null also yields `None`;
a string must parse as a datetime. -/
def parseEta (m : JsonObj) : Option (Option DTime) :=
  match alookup m "eta" with
  | none => some none
  | some .jNull => some none
  | some (.jStr s) => (parseDt s).map some
  | some _ => none

/-- Pydantic validation of a request body against `NewShipment`
(main.py lines 107-112). -/
def validateNewShipment (m : JsonObj) : Option NewShipment :=
  (reqStr m "tracking_number").bind fun tn =>
  (reqStr m "origin").bind fun og =>
  (reqStr m "destination").bind fun ds =>
  (parseStatus m).bind fun stv =>
  (parseEta m).bind fun eta =>
  some ⟨tn, og, ds, stv, eta⟩

/-! ## Persistence collaborator and handlers -/

/-- Modelled from the spec: the identifier the persistence collaborator
assigns on insert (`insert_one(collection_name, document) -> identifier`,
returned to the client as a string); `database.py` is not under src.  The
identifier is rendered as a nonempty string determined by the collection
contents. -/
def newId (st : List Doc) : String := "id-" ++ toString st.length

/-- Outcome of a call into the persistence collaborator: it either succeeds
or raises an exception whose `str(e)` is the carried message. -/
inductive DbOutcome where
  | succeeds : DbOutcome
  | raises : String → DbOutcome
deriving DecidableEq

/-- A handler response: `{ok: True, id: ...}`, `{ok: True, shipment: ...}`,
or an `HTTPException` with status code and detail string. -/
inductive Resp where
  | okId : String → Resp
  | okShipment : Doc → Resp
  | err : Nat → String → Resp
deriving DecidableEq

/-- An exception inside a handler body: an `HTTPException` carrying status
and detail, or any other Python exception carrying `str(e)`. -/
inductive Exc where
  | http : Nat → String → Exc
  | py : String → Exc
deriving DecidableEq

/-- The `except` clauses of `track_shipment` (main.py lines 101-104):
`except HTTPException: raise` re-raises unchanged; `except Exception as e:
raise HTTPException(status_code=500, detail=str(e))`. -/
def handleExc : Exc → Exc
  | .http s d => .http s d
  | .py msg => .http 500 msg

/-- Handler `create_quote` (main.py lines 71-78), after successful
validation: `create_document("quoterequest", quote)` either raises (caught
and turned into a 500 with `detail=str(e)`, collection unchanged) or
inserts the quote document and returns `{ok: True, id: inserted_id}`.
The insertion itself is modelled from the spec's persistence contract. -/
def create_quote (q : QuoteRequest) (st : List Doc) (o : DbOutcome) :
    Resp × List Doc :=
  match o with
  | .raises msg => (.err 500 msg, st)
  | .succeeds => (.okId (newId st), st ++ [quoteToDoc q])

/-- The full POST /api/quote endpoint: pydantic validation (a 422 before the
handler body runs, hence before any persistence call), then `create_quote`. -/
def quoteEndpoint (m : JsonObj) (st : List Doc) (o : DbOutcome) :
    Resp × List Doc :=
  match validateQuoteRequest m with
  | none => (.err 422 "validation error", st)
  | some q => create_quote q st o

/-- The shipment document built by `create_shipment` (main.py lines
120-134).  `payload.eta or datetime.utcnow()` keeps a given datetime
(datetimes are always truthy) and falls back to now when `eta` is `None`;
`now` stands for the value of `datetime.utcnow()` during the request. -/
def buildShipmentDoc (p : NewShipment) (now : DTime) : Doc :=
  [("tracking_number", .prim (.pStr p.tracking_number)),
   ("origin", .prim (.pStr p.origin)),
   ("destination", .prim (.pStr p.destination)),
   ("status", .prim (.pStr p.status)),
   ("eta", .prim (.pDt (p.eta.getD now))),
   ("last_update", .prim (.pDt now)),
   ("events", .vList [[("timestamp", .pDt now),
                       ("location", .pStr p.origin),
                       ("description", .pStr "Shipment created")]])]

/-- Handler `create_shipment` (main.py lines 115-138), after successful
validation: build the shipment document and insert it into the "shipment"
collection; a persistence failure is caught and becomes a 500 with
`detail=str(e)`.  The insertion is modelled from the spec's contract. -/
def create_shipment (p : NewShipment) (now : DTime) (st : List Doc)
    (o : DbOutcome) : Resp × List Doc :=
  match o with
  | .raises msg => (.err 500 msg, st)
  | .succeeds => (.okId (newId st), st ++ [buildShipmentDoc p now])

/-- The full POST /api/shipments endpoint: pydantic validation then
`create_shipment`. -/
def shipmentEndpoint (m : JsonObj) (now : DTime) (st : List Doc)
    (o : DbOutcome) : Resp × List Doc :=
  match validateNewShipment m with
  | none => (.err 422 "validation error", st)
  | some p => create_shipment p now st o

/-- Modelled from the spec: `get_documents("shipment",
\x7btracking_number: tn\x7d, limit=1)` of the persistence collaborator
(`database.py` is not under src).  Contract: find with a filter on
`tracking_number` and limit 1, i.e. at most the first matching document. -/
def findShipment (store : List Doc) (tn : String) : List Doc :=
  (store.filter fun d =>
    decide (alookup d "tracking_number" = some (.prim (.pStr tn)))).take 1

/-- The `try` body of `track_shipment` (main.py lines 84-100): query the
"shipment" collection; zero documents raise `HTTPException(404, "Tracking
number not found")`; otherwise normalize the first document (a failure
inside normalization is a plain Python exception). -/
def trackTry (store : List Doc) (tn : String) (o : DbOutcome) :
    Except Exc Doc :=
  match o with
  | .raises msg => .error (.py msg)
  | .succeeds =>
    match findShipment store tn with
    | [] => .error (.http 404 "Tracking number not found")
    | doc :: _ =>
      match normalize doc with
      | some d => .ok d
      | none => .error (.py "TypeError")

/-- Handler `track_shipment` (main.py lines 81-104): the `try` body wrapped
in the two `except` clauses; `.ok` is the 200 response
`\x7bok: True, shipment: <normalized document>\x7d`. -/
def track_shipment (store : List Doc) (tn : String) (o : DbOutcome) :
    Except Exc Doc :=
  match trackTry store tn o with
  | .ok d => .ok d
  | .error e => .error (handleExc e)

/-! ## Concrete documents and bodies used to exercise the theorems -/

/-- Whether an optional primitive value is a string. -/
def isStrPrim : Option Prim → Bool
  | some (.pStr _) => true
  | _ => false

/-- An event whose timestamp is a native datetime. -/
def ex3e1 : EventDoc := [("timestamp", .pDt ⟨3⟩)]

/-- An event whose timestamp is an integer, not a native datetime. -/
def ex3e2 : EventDoc := [("timestamp", .pInt 42)]

/-- A shipment document with datetime `eta` and `last_update` and a mixed
events list. -/
def ex3 : Doc :=
  [("_id", .prim (.pOid "a")),
   ("eta", .prim (.pDt ⟨1⟩)),
   ("last_update", .prim (.pDt ⟨2⟩)),
   ("events", .vList [ex3e1, ex3e2])]

/-- `ex3e1` after normalization. -/
def ex3e1out : EventDoc := [("timestamp", .pStr "iso-3")]

/-- `ex3` after normalization: the integer event timestamp is untouched. -/
def ex3out : Doc :=
  [("_id", .prim (.pStr "a")),
   ("eta", .prim (.pStr "iso-1")),
   ("last_update", .prim (.pStr "iso-2")),
   ("events", .vList [ex3e1out, ex3e2])]

/-- A shipment document carrying an unrelated extra field. -/
def exFrame : Doc :=
  [("foo", .prim (.pInt 7)),
   ("_id", .prim (.pOid "a1")),
   ("eta", .prim (.pDt ⟨1⟩)),
   ("events", .vList [[("timestamp", .pDt ⟨5⟩),
                       ("location", .pStr "NYC"),
                       ("description", .pStr "created")]])]

/-- `exFrame` after normalization. -/
def exFrameOut : Doc :=
  [("foo", .prim (.pInt 7)),
   ("_id", .prim (.pStr "a1")),
   ("eta", .prim (.pStr "iso-1")),
   ("events", .vList [[("timestamp", .pStr "iso-5"),
                       ("location", .pStr "NYC"),
                       ("description", .pStr "created")]])]

/-- A document with neither `_id` nor `events`. -/
def exNoEv : Doc := [("x", .prim (.pInt 1))]

/-- `exNoEv` after normalization: `_id` is appended, `events` stays absent. -/
def exNoEvOut : Doc := [("x", .prim (.pInt 1)), ("_id", .prim (.pStr "None"))]

/-- A 120-character exception message. -/
def longMsg : String := String.mk (List.replicate 120 'x')

/-- A valid quote-request body. -/
def mQuote : JsonObj :=
  [("name", .jStr "Ann"),
   ("email", .jStr "ann@acme.com"),
   ("cargo_type", .jStr "pallets"),
   ("pickup_location", .jStr "NYC"),
   ("delivery_location", .jStr "LA")]

/-- The validated model of `mQuote`. -/
def qQuote : QuoteRequest :=
  ⟨"Ann", "ann@acme.com", none, none, "pallets", none, none, "NYC", "LA",
   none, none, none⟩

/-- A valid new-shipment body omitting `status` and `eta`. -/
def mShip : JsonObj :=
  [("tracking_number", .jStr "TRK1"),
   ("origin", .jStr "NYC"),
   ("destination", .jStr "LA")]

/-- The validated model of `mShip` (and of `mShipNull`). -/
def pShip : NewShipment := ⟨"TRK1", "NYC", "LA", "In Transit", none⟩

/-- A valid new-shipment body with an explicitly null `eta`. -/
def mShipNull : JsonObj :=
  [("tracking_number", .jStr "TRK1"),
   ("origin", .jStr "NYC"),
   ("destination", .jStr "LA"),
   ("eta", .jNull)]

/-! ## Lemmas about dict get/set -/

theorem alookup_aset_self {α : Type} (l : AList α) (k : String) (v : α) :
    alookup (aset l k v) k = some v := by
  induction l with
  | nil => simp [aset, alookup]
  | cons hd tl ih =>
    obtain ⟨k', v'⟩ := hd
    by_cases h : k' = k
    · simp [aset, alookup, h]
    · simp [aset, alookup, h, ih]

theorem alookup_aset_ne {α : Type} (l : AList α) {k k' : String} (v : α)
    (h : k' ≠ k) : alookup (aset l k v) k' = alookup l k' := by
  induction l with
  | nil => simp [aset, alookup, Ne.symm h]
  | cons hd tl ih =>
    obtain ⟨k₀, v₀⟩ := hd
    by_cases h₀ : k₀ = k
    · subst h₀
      simp [aset, alookup, Ne.symm h]
    · simp [aset, alookup, h₀, ih]

theorem aset_self {α : Type} {l : AList α} {k : String} {v : α}
    (h : alookup l k = some v) : aset l k v = l := by
  induction l with
  | nil => simp [alookup] at h
  | cons hd tl ih =>
    obtain ⟨k₀, v₀⟩ := hd
    by_cases h₀ : k₀ = k
    · subst h₀
      simp [alookup] at h
      simp [aset, h]
    · simp [alookup, h₀] at h
      simp [aset, h₀, ih h]

/-! ## Lemmas about the normalization steps -/

theorem normTsField_lookup_ne (d : Doc) {k k' : String} (h : k' ≠ k) :
    alookup (normTsField d k) k' = alookup d k' := by
  unfold normTsField
  split
  · exact alookup_aset_ne d _ h
  · rfl

theorem normEvent_lookup_ne (e : EventDoc) {k : String}
    (h : k ≠ "timestamp") : alookup (normEvent e) k = alookup e k := by
  unfold normEvent
  split
  · exact alookup_aset_ne e _ h
  · rfl

theorem normTsField_not_dt (d : Doc) (k : String) (t : DTime) :
    alookup (normTsField d k) k ≠ some (.prim (.pDt t)) := by
  unfold normTsField
  split
  · rw [alookup_aset_self]
    simp
  · next hne =>
    intro hc
    exact hne _ hc

theorem normTsField_eq_of_not_dt {d : Doc} {k : String}
    (h : ∀ t : DTime, alookup d k ≠ some (.prim (.pDt t))) :
    normTsField d k = d := by
  unfold normTsField
  split
  · next t heq => exact absurd heq (h t)
  · rfl

theorem normTsField_dt {d : Doc} {k : String} {t : DTime}
    (h : alookup d k = some (.prim (.pDt t))) :
    alookup (normTsField d k) k = some (.prim (.pStr (isoformat t))) := by
  unfold normTsField
  rw [h, alookup_aset_self]

theorem normEvent_not_dt (e : EventDoc) (t : DTime) :
    alookup (normEvent e) "timestamp" ≠ some (.pDt t) := by
  unfold normEvent
  split
  · rw [alookup_aset_self]
    simp
  · next hne =>
    intro hc
    exact hne _ hc

theorem normEvent_eq_of_not_dt {e : EventDoc}
    (h : ∀ t : DTime, alookup e "timestamp" ≠ some (.pDt t)) :
    normEvent e = e := by
  unfold normEvent
  split
  · next t heq => exact absurd heq (h t)
  · rfl

theorem normEvent_dt {e : EventDoc} {t : DTime}
    (h : alookup e "timestamp" = some (.pDt t)) :
    alookup (normEvent e) "timestamp" = some (.pStr (isoformat t)) := by
  unfold normEvent
  rw [h, alookup_aset_self]

theorem normEvent_idem (e : EventDoc) : normEvent (normEvent e) = normEvent e :=
  normEvent_eq_of_not_dt (normEvent_not_dt e)

/-- Fields other than `_id`, `eta`, `last_update` are untouched by the
top-level normalization steps. -/
theorem normTop_lookup_ne (d : Doc) {k : String} (h1 : k ≠ "_id")
    (h2 : k ≠ "eta") (h3 : k ≠ "last_update") :
    alookup (normTop d) k = alookup d k := by
  unfold normTop
  rw [normTsField_lookup_ne _ h3, normTsField_lookup_ne _ h2,
    alookup_aset_ne _ _ h1]

theorem normTop_id (d : Doc) :
    alookup (normTop d) "_id" = some (.prim (.pStr (pyStr (pyGet d "_id")))) := by
  unfold normTop
  rw [normTsField_lookup_ne _ (by decide), normTsField_lookup_ne _ (by decide),
    alookup_aset_self]

theorem normTop_eta_not_dt (d : Doc) (t : DTime) :
    alookup (normTop d) "eta" ≠ some (.prim (.pDt t)) := by
  unfold normTop
  rw [normTsField_lookup_ne _ (by decide)]
  exact normTsField_not_dt _ _ t

theorem normTop_lu_not_dt (d : Doc) (t : DTime) :
    alookup (normTop d) "last_update" ≠ some (.prim (.pDt t)) :=
  normTsField_not_dt _ _ t

/-- A document whose `_id` is already a string and whose `eta` and
`last_update` are not datetimes is a fixed point of the top-level
normalization steps. -/
theorem normTop_fix {d' : Doc} {s : String}
    (hid : alookup d' "_id" = some (.prim (.pStr s)))
    (heta : ∀ t : DTime, alookup d' "eta" ≠ some (.prim (.pDt t)))
    (hlu : ∀ t : DTime, alookup d' "last_update" ≠ some (.prim (.pDt t))) :
    normTop d' = d' := by
  unfold normTop
  have h1 : pyGet d' "_id" = .prim (.pStr s) := by simp [pyGet, hid]
  rw [h1, show pyStr (Value.prim (Prim.pStr s)) = s from rfl,
    aset_self hid, normTsField_eq_of_not_dt heta, normTsField_eq_of_not_dt hlu]

/-- The output of a successful normalization is a fixed point of
normalization. -/
theorem normalize_fix {d d' : Doc} (h : normalize d = some d') :
    normalize d' = some d' := by
  simp only [normalize] at h
  cases hev : pyGet (normTop d) "events" with
  | prim p =>
    rw [hev] at h
    by_cases ht : pyTruthy (Value.prim p) = true
    · rw [if_pos ht] at h
      exact absurd h (by simp)
    · rw [if_neg ht] at h
      injection h with h'
      subst h'
      simp only [normalize]
      rw [normTop_fix (normTop_id d) (normTop_eta_not_dt d)
        (normTop_lu_not_dt d), hev, if_neg ht]
  | vList es =>
    rw [hev] at h
    by_cases ht : pyTruthy (Value.vList es) = true
    · rw [if_pos ht] at h
      injection h with h'
      subst h'
      have hid' : alookup (aset (normTop d) "events"
          (Value.vList (es.map normEvent))) "_id"
          = some (.prim (.pStr (pyStr (pyGet d "_id")))) := by
        rw [alookup_aset_ne _ _ (by decide)]
        exact normTop_id d
      have heta' : ∀ t : DTime, alookup (aset (normTop d) "events"
          (Value.vList (es.map normEvent))) "eta"
          ≠ some (.prim (.pDt t)) := by
        intro t
        rw [alookup_aset_ne _ _ (by decide)]
        exact normTop_eta_not_dt d t
      have hlu' : ∀ t : DTime, alookup (aset (normTop d) "events"
          (Value.vList (es.map normEvent))) "last_update"
          ≠ some (.prim (.pDt t)) := by
        intro t
        rw [alookup_aset_ne _ _ (by decide)]
        exact normTop_lu_not_dt d t
      simp only [normalize]
      rw [normTop_fix hid' heta' hlu']
      have hev' : pyGet (aset (normTop d) "events"
          (Value.vList (es.map normEvent))) "events"
          = .vList (es.map normEvent) := by
        simp [pyGet, alookup_aset_self]
      rw [hev']
      have htru' : pyTruthy (Value.vList (es.map normEvent)) = true := by
        simp only [pyTruthy] at ht ⊢
        simpa using ht
      rw [if_pos htru']
      have hmap : (es.map normEvent).map normEvent = es.map normEvent := by
        rw [List.map_map]
        exact List.map_congr_left fun e _ => normEvent_idem e
      show some (aset (aset (normTop d) "events" (Value.vList (es.map normEvent)))
          "events" (Value.vList ((es.map normEvent).map normEvent)))
        = some (aset (normTop d) "events" (Value.vList (es.map normEvent)))
      rw [hmap, aset_self (alookup_aset_self (normTop d) "events" _)]
    · rw [if_neg ht] at h
      injection h with h'
      subst h'
      simp only [normalize]
      rw [normTop_fix (normTop_id d) (normTop_eta_not_dt d)
        (normTop_lu_not_dt d), hev, if_neg ht]

/-- `d.get(k)` returning an events list means the field is present with it. -/
theorem alookup_of_pyGet_vList {d : Doc} {k : String} {es : List EventDoc}
    (h : pyGet d k = .vList es) : alookup d k = some (.vList es) := by
  unfold pyGet at h
  cases halk : alookup d k with
  | none => rw [halk] at h; exact absurd h (by simp [Option.getD])
  | some v => rw [halk] at h; simp [Option.getD] at h; rw [h]

/-- The two possible outcomes of a successful normalization: either the
events loop ran zero times (`doc.get("events") or []` was empty) and the
document is just `normTop d`, or the events field held a nonempty list and
was rewritten event by event. -/
theorem normalize_shape {d d' : Doc} (h : normalize d = some d') :
    (d' = normTop d ∧ pyTruthy (pyGet d "events") = false) ∨
    (∃ es, alookup d "events" = some (.vList es) ∧ es ≠ [] ∧
      d' = aset (normTop d) "events" (.vList (es.map normEvent))) := by
  simp only [normalize] at h
  have hevget : pyGet (normTop d) "events" = pyGet d "events" := by
    unfold pyGet
    rw [normTop_lookup_ne d (k := "events") (by decide) (by decide) (by decide)]
  rw [hevget] at h
  cases hev : pyGet d "events" with
  | prim p =>
    rw [hev] at h
    by_cases ht : pyTruthy (Value.prim p) = true
    · rw [if_pos ht] at h
      exact absurd h (by simp)
    · rw [if_neg ht] at h
      injection h with h'
      left
      exact ⟨h'.symm, by simpa using ht⟩
  | vList es =>
    rw [hev] at h
    by_cases ht : pyTruthy (Value.vList es) = true
    · rw [if_pos ht] at h
      have h2 : some (aset (normTop d) "events" (Value.vList (es.map normEvent)))
          = some d' := h
      injection h2 with h'
      right
      refine ⟨es, alookup_of_pyGet_vList hev, ?_, h'.symm⟩
      simp only [pyTruthy] at ht
      simpa using ht
    · rw [if_neg ht] at h
      injection h with h'
      left
      exact ⟨h'.symm, by simpa using ht⟩

/-- A successful normalization always leaves `_id` holding the `str` of the
original `doc.get("_id")`. -/
theorem normalize_id_str {d d' : Doc} (h : normalize d = some d') :
    alookup d' "_id" = some (.prim (.pStr (pyStr (pyGet d "_id")))) := by
  rcases normalize_shape h with ⟨rfl, -⟩ | ⟨es, -, -, rfl⟩
  · exact normTop_id d
  · rw [alookup_aset_ne _ _ (by decide)]
    exact normTop_id d

/-- C2: the shipment-document normalization performed by `track_shipment`
is idempotent: re-running it on the result of a first run (including the
exception outcome, which it reproduces) gives the same result, because
after one pass the identifier and all converted timestamp values are
strings and string values fail the datetime `isinstance` check. -/
theorem normalize_idem (d : Doc) :
    (normalize d).bind normalize = normalize d := by
  cases h : normalize d with
  | none => rfl
  | some d' => simpa using normalize_fix h

/-- C9: when the retrieved document has no `_id` field, normalization adds
one holding the literal string `"None"`, because line 90 applies `str` to
`doc.get("_id")` unconditionally and `str(None) = "None"`. -/
theorem normalize_absent_id_None {d d' : Doc}
    (h1 : alookup d "_id" = none) (h2 : normalize d = some d') :
    alookup d' "_id" = some (.prim (.pStr "None")) := by
  have h := normalize_id_str h2
  rw [pyGet, h1] at h
  simpa using h

/-- C9 witness: normalizing a document without `_id` at a concrete input. -/
theorem normalize_absent_id_None_witness :
    alookup exNoEvOut "_id" = some (.prim (.pStr "None")) :=
  @normalize_absent_id_None exNoEv exNoEvOut rfl (by decide)

theorem normTop_eta_dt {d : Doc} {t : DTime}
    (h : alookup d "eta" = some (.prim (.pDt t))) :
    alookup (normTop d) "eta" = some (.prim (.pStr (isoformat t))) := by
  unfold normTop
  rw [normTsField_lookup_ne _ (by decide)]
  exact normTsField_dt (by
    rw [alookup_aset_ne _ _ (by decide)]
    exact h)

theorem normTop_lu_dt {d : Doc} {t : DTime}
    (h : alookup d "last_update" = some (.prim (.pDt t))) :
    alookup (normTop d) "last_update" = some (.prim (.pStr (isoformat t))) := by
  unfold normTop
  exact normTsField_dt (by
    rw [normTsField_lookup_ne _ (by decide), alookup_aset_ne _ _ (by decide)]
    exact h)

/-- C8: normalization changes at most `_id`, `eta`, `last_update` and the
`timestamp` of each events entry: every other top-level field keeps its
value, each event keeps its `location` and `description`, and an absent
`events` field stays absent (no empty list is added). -/
theorem normalize_frame {d d' : Doc} (h : normalize d = some d') :
    (∀ k, k ≠ "_id" → k ≠ "eta" → k ≠ "last_update" → k ≠ "events" →
      alookup d' k = alookup d k) ∧
    (alookup d "events" = none → alookup d' "events" = none) ∧
    (∀ es, alookup d "events" = some (.vList es) →
      alookup d' "events" = some (.vList (es.map normEvent)) ∧
      ∀ e ∈ es, alookup (normEvent e) "location" = alookup e "location" ∧
        alookup (normEvent e) "description" = alookup e "description") := by
  rcases normalize_shape h with ⟨rfl, hfalse⟩ | ⟨es, hes, hne, rfl⟩
  · refine ⟨fun k h1 h2 h3 _ => normTop_lookup_ne d h1 h2 h3,
      fun habs => ?_, fun es hes => ⟨?_, ?_⟩⟩
    · rw [normTop_lookup_ne d (by decide) (by decide) (by decide), habs]
    · rw [normTop_lookup_ne d (by decide) (by decide) (by decide), hes]
      have hnil : es = [] := by
        have hg : pyGet d "events" = Value.vList es := by simp [pyGet, hes]
        rw [hg] at hfalse
        simpa [pyTruthy] using hfalse
      subst hnil
      rfl
    · intro e _
      exact ⟨normEvent_lookup_ne e (by decide), normEvent_lookup_ne e (by decide)⟩
  · refine ⟨fun k h1 h2 h3 h4 => ?_, fun habs => ?_, fun es0 hes0 => ⟨?_, ?_⟩⟩
    · rw [alookup_aset_ne _ _ h4]
      exact normTop_lookup_ne d h1 h2 h3
    · rw [habs] at hes
      exact absurd hes (by simp)
    · have heq : es = es0 := by
        rw [hes] at hes0
        simpa using hes0
      subst heq
      exact alookup_aset_self _ _ _
    · intro e _
      exact ⟨normEvent_lookup_ne e (by decide), normEvent_lookup_ne e (by decide)⟩

/-- C8 witness: the frame property at two concrete documents, one with an
events list and an unrelated field, one with no `events` at all. -/
theorem normalize_frame_witness :
    alookup exFrameOut "foo" = alookup exFrame "foo" ∧
    alookup exNoEvOut "events" = none := by
  have H1 := @normalize_frame exFrame exFrameOut (by decide)
  have H2 := @normalize_frame exNoEv exNoEvOut (by decide)
  exact ⟨H1.1 "foo" (by decide) (by decide) (by decide) (by decide),
    H2.2.1 rfl⟩

/-- C3 counterexample: a shipment document satisfying the claim's
hypotheses (datetime `eta` and `last_update`, at least one event with a
datetime timestamp) whose normalized form still contains an event timestamp
that is not a string: the integer timestamp of the second event is left
unchanged. -/
theorem normalize_events_counterexample :
    alookup ex3 "eta" = some (.prim (.pDt ⟨1⟩)) ∧
    alookup ex3 "last_update" = some (.prim (.pDt ⟨2⟩)) ∧
    alookup ex3 "events" = some (.vList [ex3e1, ex3e2]) ∧
    (∃ u : DTime, alookup ex3e1 "timestamp" = some (.pDt u)) ∧
    normalize ex3 = some ex3out ∧
    alookup ex3out "events" = some (.vList [ex3e1out, ex3e2]) ∧
    alookup ex3e2 "timestamp" = some (.pInt 42) ∧
    isStrPrim (alookup ex3e2 "timestamp") = false :=
  ⟨rfl, rfl, rfl, ⟨⟨3⟩, rfl⟩, by decide, by decide, rfl, rfl⟩

/-- C3 (amended): under the claim's hypotheses, normalization succeeds,
`eta` and `last_update` become their ISO-8601 strings, `_id` becomes a
string, and each event's timestamp becomes its ISO-8601 string exactly when
it was a native datetime (events whose timestamp is not a native datetime
are left unchanged). -/
theorem normalize_converts_timestamps {d : Doc} {t1 t2 : DTime}
    {es : List EventDoc}
    (heta : alookup d "eta" = some (.prim (.pDt t1)))
    (hlu : alookup d "last_update" = some (.prim (.pDt t2)))
    (hes : alookup d "events" = some (.vList es))
    (hne : ∃ e ∈ es, ∃ u : DTime, alookup e "timestamp" = some (.pDt u)) :
    ∃ d', normalize d = some d' ∧
      alookup d' "eta" = some (.prim (.pStr (isoformat t1))) ∧
      alookup d' "last_update" = some (.prim (.pStr (isoformat t2))) ∧
      (∃ s, alookup d' "_id" = some (.prim (.pStr s))) ∧
      alookup d' "events" = some (.vList (es.map normEvent)) ∧
      (∀ e ∈ es, ∀ u : DTime, alookup e "timestamp" = some (.pDt u) →
        alookup (normEvent e) "timestamp" = some (.pStr (isoformat u))) ∧
      (∀ e ∈ es, (∀ u : DTime, alookup e "timestamp" ≠ some (.pDt u)) →
        normEvent e = e) := by
  have hesne : es ≠ [] := by
    obtain ⟨e, he, -⟩ := hne
    intro h0
    rw [h0] at he
    simp at he
  have hevTop : alookup (normTop d) "events" = some (.vList es) := by
    rw [normTop_lookup_ne d (by decide) (by decide) (by decide)]
    exact hes
  have hg : pyGet (normTop d) "events" = .vList es := by
    simp [pyGet, hevTop]
  have htr : pyTruthy (Value.vList es) = true := by
    simp only [pyTruthy]
    simpa using hesne
  refine ⟨aset (normTop d) "events" (.vList (es.map normEvent)), ?_, ?_, ?_,
    ⟨pyStr (pyGet d "_id"), ?_⟩, ?_, ?_, ?_⟩
  · simp only [normalize]
    rw [hg, if_pos htr]
  · rw [alookup_aset_ne _ _ (by decide)]
    exact normTop_eta_dt heta
  · rw [alookup_aset_ne _ _ (by decide)]
    exact normTop_lu_dt hlu
  · rw [alookup_aset_ne _ _ (by decide)]
    exact normTop_id d
  · exact alookup_aset_self _ _ _
  · intro e _ u hu
    exact normEvent_dt hu
  · intro e _ hnot
    exact normEvent_eq_of_not_dt hnot

/-- C3 witness: the amended statement at a concrete document. -/
theorem normalize_converts_timestamps_witness :
    ∃ d', normalize ex3 = some d' ∧
      alookup d' "eta" = some (.prim (.pStr (isoformat ⟨1⟩))) ∧
      alookup d' "last_update" = some (.prim (.pStr (isoformat ⟨2⟩))) ∧
      (∃ s, alookup d' "_id" = some (.prim (.pStr s))) ∧
      alookup d' "events" = some (.vList ([ex3e1, ex3e2].map normEvent)) ∧
      (∀ e ∈ [ex3e1, ex3e2], ∀ u : DTime,
        alookup e "timestamp" = some (.pDt u) →
        alookup (normEvent e) "timestamp" = some (.pStr (isoformat u))) ∧
      (∀ e ∈ [ex3e1, ex3e2],
        (∀ u : DTime, alookup e "timestamp" ≠ some (.pDt u)) →
        normEvent e = e) :=
  normalize_converts_timestamps (d := ex3) rfl rfl rfl
    ⟨ex3e1, by decide, ⟨3⟩, rfl⟩

/-! ## Lemmas about validation -/

theorem reqStr_some {m : JsonObj} {k : String} {s : String}
    (h : reqStr m k = some s) : alookup m k = some (.jStr s) := by
  unfold reqStr at h
  split at h
  · next heq =>
    injection h with h'
    subst h'
    exact heq
  · exact absurd h (by simp)

theorem of_option_guard {c : Prop} [Decidable c] {u : Unit}
    (h : (if c then some () else none) = some u) : c := by
  by_cases hc : c
  · exact hc
  · rw [if_neg hc] at h
    exact absurd h (by simp)

theorem optNonnegNum_nonneg {m : JsonObj} {k : String} {w : Option Rat}
    (h : optNonnegNum m k = some w) :
    ∀ q : Rat, alookup m k = some (.jNum q) → 0 ≤ q := by
  intro q hq
  unfold optNonnegNum at h
  rw [hq] at h
  have h2 : (if (0 : Rat) ≤ q then some (some q) else none) = some w := h
  by_cases h0 : (0 : Rat) ≤ q
  · exact h0
  · rw [if_neg h0] at h2
    exact absurd h2 (by simp)

/-- What a successful `QuoteRequest` validation says about the body: every
required field is present as a string, the email passed the syntax check,
and any supplied `weight_kg` number is nonnegative. -/
theorem validateQuoteRequest_inv {m : JsonObj} {q : QuoteRequest}
    (hv : validateQuoteRequest m = some q) :
    alookup m "name" = some (.jStr q.name) ∧
    alookup m "email" = some (.jStr q.email) ∧
    isValidEmail q.email = true ∧
    alookup m "cargo_type" = some (.jStr q.cargo_type) ∧
    alookup m "pickup_location" = some (.jStr q.pickup_location) ∧
    alookup m "delivery_location" = some (.jStr q.delivery_location) ∧
    (∀ w : Rat, alookup m "weight_kg" = some (.jNum w) → 0 ≤ w) := by
  unfold validateQuoteRequest at hv
  rw [Option.bind_eq_some] at hv
  obtain ⟨name, hname, hv⟩ := hv
  rw [Option.bind_eq_some] at hv
  obtain ⟨email, hemail, hv⟩ := hv
  rw [Option.bind_eq_some] at hv
  obtain ⟨u, hvalid, hv⟩ := hv
  rw [Option.bind_eq_some] at hv
  obtain ⟨phone, -, hv⟩ := hv
  rw [Option.bind_eq_some] at hv
  obtain ⟨company, -, hv⟩ := hv
  rw [Option.bind_eq_some] at hv
  obtain ⟨cargo, hcargo, hv⟩ := hv
  rw [Option.bind_eq_some] at hv
  obtain ⟨weight, hweight, hv⟩ := hv
  rw [Option.bind_eq_some] at hv
  obtain ⟨dims, -, hv⟩ := hv
  rw [Option.bind_eq_some] at hv
  obtain ⟨pickup, hpickup, hv⟩ := hv
  rw [Option.bind_eq_some] at hv
  obtain ⟨delivery, hdelivery, hv⟩ := hv
  rw [Option.bind_eq_some] at hv
  obtain ⟨ppd, -, hv⟩ := hv
  rw [Option.bind_eq_some] at hv
  obtain ⟨pdd, -, hv⟩ := hv
  rw [Option.bind_eq_some] at hv
  obtain ⟨notes, -, hv⟩ := hv
  injection hv with hv'
  subst hv'
  exact ⟨reqStr_some hname, reqStr_some hemail, of_option_guard hvalid,
    reqStr_some hcargo, reqStr_some hpickup, reqStr_some hdelivery,
    optNonnegNum_nonneg hweight⟩

/-- What a successful `NewShipment` validation says about the body. -/
theorem validateNewShipment_inv {m : JsonObj} {p : NewShipment}
    (hv : validateNewShipment m = some p) :
    alookup m "tracking_number" = some (.jStr p.tracking_number) ∧
    alookup m "origin" = some (.jStr p.origin) ∧
    alookup m "destination" = some (.jStr p.destination) ∧
    parseStatus m = some p.status ∧
    parseEta m = some p.eta := by
  unfold validateNewShipment at hv
  rw [Option.bind_eq_some] at hv
  obtain ⟨tn, htn, hv⟩ := hv
  rw [Option.bind_eq_some] at hv
  obtain ⟨og, hog, hv⟩ := hv
  rw [Option.bind_eq_some] at hv
  obtain ⟨ds, hds, hv⟩ := hv
  rw [Option.bind_eq_some] at hv
  obtain ⟨stv, hstv, hv⟩ := hv
  rw [Option.bind_eq_some] at hv
  obtain ⟨eta, heta, hv⟩ := hv
  injection hv with hv'
  subst hv'
  exact ⟨reqStr_some htn, reqStr_some hog, reqStr_some hds, hstv, heta⟩

theorem buildShipmentDoc_status (p : NewShipment) (now : DTime) :
    alookup (buildShipmentDoc p now) "status"
      = some (.prim (.pStr p.status)) := by
  simp [buildShipmentDoc, alookup]

theorem buildShipmentDoc_eta (p : NewShipment) (now : DTime) :
    alookup (buildShipmentDoc p now) "eta"
      = some (.prim (.pDt (p.eta.getD now))) := by
  simp [buildShipmentDoc, alookup]

theorem buildShipmentDoc_events (p : NewShipment) (now : DTime) :
    alookup (buildShipmentDoc p now) "events"
      = some (.vList [[("timestamp", .pDt now), ("location", .pStr p.origin),
          ("description", .pStr "Shipment created")]]) := by
  simp [buildShipmentDoc, alookup]

theorem newId_ne_empty (st : List Doc) : newId st ≠ "" := by
  unfold newId
  intro h
  have h2 := congrArg String.length h
  rw [String.length_append] at h2
  have h3 : ("id-" : String).length = 3 := rfl
  have h4 : ("" : String).length = 0 := rfl
  omega

/-! ## Claims about the handlers -/

/-- C1: whenever the shipment query returns zero documents,
`track_shipment` raises `HTTPException(404, "Tracking number not found")`,
and the `except HTTPException: raise` clause re-raises it unchanged instead
of converting it into a 500. -/
theorem track_not_found_404 (store : List Doc) (tn : String)
    (h : findShipment store tn = []) :
    track_shipment store tn .succeeds
      = .error (.http 404 "Tracking number not found") := by
  unfold track_shipment trackTry
  rw [h]
  rfl

/-- C1 witness: an empty store and a concrete tracking number. -/
theorem track_not_found_404_witness :
    track_shipment [] "UNKNOWN123" .succeeds
      = .error (.http 404 "Tracking number not found") :=
  track_not_found_404 [] "UNKNOWN123" rfl

/-- C4 counterexample: a persistence failure whose message has 120
characters is reported by `create_quote` with the full 120-character
message as the 500 detail — nothing truncates it to a short string. -/
theorem persistence_failure_counterexample :
    (create_quote qQuote [] (.raises longMsg)).1 = .err 500 longMsg ∧
    longMsg.length = 120 ∧ ¬ longMsg.length ≤ 50 :=
  ⟨rfl, by decide, by decide⟩

/-- C4 (amended): whenever the persistence collaborator raises an
unexpected failure inside any of the three handlers, the handler reports
HTTP 500 whose detail is exactly `str(e)`, the collaborator's full
exception message, passed through without truncation. -/
theorem persistence_failure_500_full_message (msg : String)
    (q : QuoteRequest) (p : NewShipment) (now : DTime)
    (st1 st2 st3 : List Doc) (tn : String) :
    create_quote q st1 (.raises msg) = (.err 500 msg, st1) ∧
    create_shipment p now st2 (.raises msg) = (.err 500 msg, st2) ∧
    track_shipment st3 tn (.raises msg) = .error (.http 500 msg) :=
  ⟨rfl, rfl, rfl⟩

/-- C5: for a body that validates as `NewShipment`, `create_shipment`
builds a document whose `status` is the literal `"In Transit"` when the
body omits `status`, whose `eta` is the current timestamp when the body
omits `eta`, and whose events list is exactly the one synthesized event;
it inserts that document into the "shipment" collection and returns
`ok` with the inserted identifier as a nonempty string. -/
theorem shipment_created (m : JsonObj) (p : NewShipment) (now : DTime)
    (st : List Doc) (hv : validateNewShipment m = some p) :
    (alookup m "status" = none →
      p.status = "In Transit" ∧
      alookup (buildShipmentDoc p now) "status"
        = some (.prim (.pStr "In Transit"))) ∧
    (alookup m "eta" = none →
      p.eta = none ∧
      alookup (buildShipmentDoc p now) "eta" = some (.prim (.pDt now))) ∧
    alookup (buildShipmentDoc p now) "events"
      = some (.vList [[("timestamp", .pDt now), ("location", .pStr p.origin),
          ("description", .pStr "Shipment created")]]) ∧
    create_shipment p now st .succeeds
      = (.okId (newId st), st ++ [buildShipmentDoc p now]) ∧
    newId st ≠ "" := by
  obtain ⟨-, -, -, hst, heta⟩ := validateNewShipment_inv hv
  refine ⟨fun habs => ?_, fun habs => ?_, buildShipmentDoc_events p now,
    rfl, newId_ne_empty st⟩
  · unfold parseStatus at hst
    rw [habs] at hst
    have h2 : some "In Transit" = some p.status := hst
    injection h2 with h3
    refine ⟨h3.symm, ?_⟩
    rw [buildShipmentDoc_status, ← h3]
  · unfold parseEta at heta
    rw [habs] at heta
    have h2 : some (none : Option DTime) = some p.eta := heta
    injection h2 with h3
    refine ⟨h3.symm, ?_⟩
    rw [buildShipmentDoc_eta, ← h3]
    rfl

/-- C5 witness: the creation pipeline at a concrete body omitting `status`
and `eta`. -/
theorem shipment_created_witness :
    pShip.status = "In Transit" ∧ pShip.eta = none ∧
    alookup (buildShipmentDoc pShip ⟨0⟩) "status"
      = some (.prim (.pStr "In Transit")) ∧
    alookup (buildShipmentDoc pShip ⟨0⟩) "eta" = some (.prim (.pDt ⟨0⟩)) ∧
    alookup (buildShipmentDoc pShip ⟨0⟩) "events"
      = some (.vList [[("timestamp", .pDt ⟨0⟩), ("location", .pStr pShip.origin),
          ("description", .pStr "Shipment created")]]) ∧
    create_shipment pShip ⟨0⟩ [] .succeeds
      = (.okId (newId []), [] ++ [buildShipmentDoc pShip ⟨0⟩]) := by
  have H := shipment_created mShip pShip ⟨0⟩ [] (by decide)
  exact ⟨(H.1 rfl).1, (H.2.1 rfl).1, (H.1 rfl).2, (H.2.1 rfl).2,
    H.2.2.1, H.2.2.2.1⟩

/-- C6: a quote body missing any required field, or with an email failing
the syntax check, or with a negative `weight_kg`, is rejected with the 422
validation error before any persistence call, and the "quoterequest"
collection is unchanged. -/
theorem quote_invalid_422 (m : JsonObj) (st : List Doc) (o : DbOutcome)
    (h : alookup m "name" = none ∨ alookup m "email" = none ∨
      alookup m "cargo_type" = none ∨ alookup m "pickup_location" = none ∨
      alookup m "delivery_location" = none ∨
      (∃ s, alookup m "email" = some (.jStr s) ∧ isValidEmail s = false) ∨
      (∃ w : Rat, alookup m "weight_kg" = some (.jNum w) ∧ w < 0)) :
    quoteEndpoint m st o = (.err 422 "validation error", st) := by
  cases hval : validateQuoteRequest m with
  | none =>
    unfold quoteEndpoint
    rw [hval]
  | some q =>
    exfalso
    obtain ⟨hn, he, hev, hc, hp, hdl, hw⟩ := validateQuoteRequest_inv hval
    rcases h with h|h|h|h|h|⟨s, hs, hbad⟩|⟨w, hw2, hneg⟩
    · rw [h] at hn; exact absurd hn (by simp)
    · rw [h] at he; exact absurd he (by simp)
    · rw [h] at hc; exact absurd hc (by simp)
    · rw [h] at hp; exact absurd hp (by simp)
    · rw [h] at hdl; exact absurd hdl (by simp)
    · have hse : s = q.email := by
        rw [hs] at he
        simpa using he
      rw [hse, hev] at hbad
      exact absurd hbad (by simp)
    · exact absurd (hw w hw2) (not_le.mpr hneg)

/-- C6 witness: the empty body (every required field absent) at a concrete
store. -/
theorem quote_invalid_422_witness :
    quoteEndpoint [] [] .succeeds = (.err 422 "validation error", []) :=
  quote_invalid_422 [] [] .succeeds (Or.inl rfl)

/-- C7: a body that validates as a `QuoteRequest` is, when the persistence
call succeeds, answered with `ok` and a nonempty identifier string, and the
corresponding document is present in the "quoterequest" collection. -/
theorem quote_valid_inserted (m : JsonObj) (q : QuoteRequest) (st : List Doc)
    (hv : validateQuoteRequest m = some q) :
    quoteEndpoint m st .succeeds = (.okId (newId st), st ++ [quoteToDoc q]) ∧
    newId st ≠ "" ∧
    quoteToDoc q ∈ (quoteEndpoint m st .succeeds).2 := by
  have hrun : quoteEndpoint m st .succeeds
      = (.okId (newId st), st ++ [quoteToDoc q]) := by
    unfold quoteEndpoint
    rw [hv]
    rfl
  refine ⟨hrun, newId_ne_empty st, ?_⟩
  rw [hrun]
  simp

/-- C7 witness: the quote pipeline at a concrete valid body. -/
theorem quote_valid_inserted_witness :
    quoteEndpoint mQuote [] .succeeds
      = (.okId (newId []), [] ++ [quoteToDoc qQuote]) ∧
    newId [] ≠ "" ∧
    quoteToDoc qQuote ∈ (quoteEndpoint mQuote [] .succeeds).2 :=
  quote_valid_inserted mQuote qQuote [] (by decide)

/-- C10: an explicitly null `eta` in the body validates to `None` exactly
like an absent `eta`, and `payload.eta or datetime.utcnow()` then stores
the current timestamp; moreover for every validated body the stored `eta`
is a datetime, never null. -/
theorem eta_null_like_absent (m : JsonObj) (p : NewShipment) (now : DTime)
    (hv : validateNewShipment m = some p)
    (h : alookup m "eta" = some .jNull ∨ alookup m "eta" = none) :
    p.eta = none ∧
    alookup (buildShipmentDoc p now) "eta" = some (.prim (.pDt now)) ∧
    ∀ r : NewShipment, ∃ t : DTime,
      alookup (buildShipmentDoc r now) "eta" = some (.prim (.pDt t)) := by
  obtain ⟨-, -, -, -, heta⟩ := validateNewShipment_inv hv
  have hpe : p.eta = none := by
    unfold parseEta at heta
    rcases h with h|h <;> rw [h] at heta
    · have h2 : some (none : Option DTime) = some p.eta := heta
      injection h2 with h3
      exact h3.symm
    · have h2 : some (none : Option DTime) = some p.eta := heta
      injection h2 with h3
      exact h3.symm
  refine ⟨hpe, ?_, fun r => ⟨r.eta.getD now, buildShipmentDoc_eta r now⟩⟩
  rw [buildShipmentDoc_eta, hpe]
  rfl

/-- C10 witness: a concrete body with an explicit null `eta`. -/
theorem eta_null_like_absent_witness :
    pShip.eta = none ∧
    alookup (buildShipmentDoc pShip ⟨0⟩) "eta" = some (.prim (.pDt ⟨0⟩)) ∧
    (∃ t : DTime, alookup (buildShipmentDoc pShip ⟨1⟩) "eta"
      = some (.prim (.pDt t))) := by
  have H0 := eta_null_like_absent mShipNull pShip ⟨0⟩ (by decide) (Or.inl rfl)
  have H1 := eta_null_like_absent mShipNull pShip ⟨1⟩ (by decide) (Or.inl rfl)
  exact ⟨H0.1, H0.2.1, H1.2.2 pShip⟩

end Backend
